import Mathlib

/-!
# Attendance Aggregation Pipeline — verification development

Shallow embedding of the load/join/filter/aggregate pipeline of
`attendance_dashboard.py` over Lean lists, together with theorems about it.

Modelling choices:
* A dataframe is a `List` of records.
* A pandas timestamp is a `ℕ` (seconds since the epoch); the calendar date
  extracted by `.dt.date` / `.date()` is the day number `t / 86400`.
* `pd.to_datetime(..., errors := coerce)` is modelled by giving the raw
  attendance row a `Date : Option ℕ` field: `none` is `NaT`, i.e. an
  unparseable date cell.  A missing `Duration_Minutes` cell (`NaN`) is
  `none : Option ℚ`.
* Floats are modelled as `ℚ`.
* `groupby` (with the pandas default `sort := True`) enumerates the distinct
  key values in ascending order: embedded as `insertionSort (· ≤ ·)` of the
  deduplicated key list.  `sort_values` runs with the pandas default
  `kind := quicksort`, which is documented as NOT stable: the program leaves
  the relative order of rows with equal sort-column values unspecified.  An
  executable embedding must still pick one deterministic output, so
  `sort_values` is embedded as `insertionSort` by the sort column; every
  theorem below about a sorted summary states only properties that hold for
  ANY reordering that sorts by the column (a permutation of the rows,
  pairwise descending totals) and never relies on where the embedding puts
  tied rows.  The one concrete evaluation of a sort on tied rows
  (`C3_counterexample_tie_not_first_occurrence`) sorts a two-element list,
  where numpy's introsort falls back to insertion sort and provably keeps
  the input order, so the embedded output coincides with the program's.
-/

namespace Attendance

/-- One row of the attendance spreadsheet, after the `pd.to_datetime`
parse: `Date = none` models `NaT` (an unparseable or missing date cell),
`Duration_Minutes = none` models `NaN`. -/
structure RawAttendanceRow where
  Date : Option ℕ
  Student_Name : String
  Teacher_Name : String
  Subject : String
  Duration_Minutes : Option ℚ
  Source_File : Option String
deriving DecidableEq, Repr

/-- One row of the student/teacher master spreadsheet. -/
structure StudentMasterRow where
  Student_ID : String
  Name : String
  Grade : String
  Email : String
  Status : String
deriving DecidableEq, Repr

/-- A cleaned attendance row: valid `Date`, `Duration_Minutes` with `NaN`
filled by `0`, and the derived `Duration_Hours` column. -/
structure CleanRow where
  Date : ℕ
  Student_Name : String
  Teacher_Name : String
  Subject : String
  Duration_Minutes : ℚ
  Duration_Hours : ℚ
  Source_File : Option String
deriving DecidableEq, Repr

/-- A row of the merged dataframe: attendance left-joined to the master on
`Student_Name = Name`; the master columns are `Option`s (`none` = the null
fields of an unmatched row).  The master `Name` column is renamed
`Student_Name_Master`. -/
structure JoinedRecord where
  Date : ℕ
  Student_Name : String
  Teacher_Name : String
  Subject : String
  Duration_Minutes : ℚ
  Duration_Hours : ℚ
  Source_File : Option String
  Student_ID : Option String
  Student_Name_Master : Option String
  Grade : Option String
  Email : Option String
  Status : Option String
deriving DecidableEq, Repr

/-- Calendar date (day number) of a timestamp: models `.dt.date` /
`Timestamp.date()`. -/
def dateOf (t : ℕ) : ℕ := t / 86400

/-- The cleaning steps of `load_data`:
`attendance["Date"] = pd.to_datetime(attendance["Date"], errors="coerce")`,
`attendance = attendance.dropna(subset=["Date"])`,
`attendance["Duration_Minutes"] = attendance["Duration_Minutes"].fillna(0).astype(float)`,
`attendance["Duration_Hours"] = attendance["Duration_Minutes"] / 60.0`. -/
def cleanAttendance (att : List RawAttendanceRow) : List CleanRow :=
  att.filterMap fun w =>
    match w.Date with
    | none => none
    | some d =>
      some { Date := d
             Student_Name := w.Student_Name
             Teacher_Name := w.Teacher_Name
             Subject := w.Subject
             Duration_Minutes := w.Duration_Minutes.getD 0
             Duration_Hours := w.Duration_Minutes.getD 0 / 60
             Source_File := w.Source_File }

/-- One joined row carrying the master columns of `s`. -/
def mkJoined (c : CleanRow) (s : StudentMasterRow) : JoinedRecord :=
  { Date := c.Date
    Student_Name := c.Student_Name
    Teacher_Name := c.Teacher_Name
    Subject := c.Subject
    Duration_Minutes := c.Duration_Minutes
    Duration_Hours := c.Duration_Hours
    Source_File := c.Source_File
    Student_ID := some s.Student_ID
    Student_Name_Master := some s.Name
    Grade := some s.Grade
    Email := some s.Email
    Status := some s.Status }

/-- The joined row of an attendance row with no master match: the master
columns are null. -/
def mkUnmatched (c : CleanRow) : JoinedRecord :=
  { Date := c.Date
    Student_Name := c.Student_Name
    Teacher_Name := c.Teacher_Name
    Subject := c.Subject
    Duration_Minutes := c.Duration_Minutes
    Duration_Hours := c.Duration_Hours
    Source_File := c.Source_File
    Student_ID := none
    Student_Name_Master := none
    Grade := none
    Email := none
    Status := none }

/-- The left join `attendance.merge(students, left_on="Student_Name",
right_on="Name", how="left")`, restricted to one attendance row: one output
row per master row whose `Name` equals the row's `Student_Name`, and exactly
one output row with null master fields when there is no match. -/
def joinRow (students : List StudentMasterRow) (c : CleanRow) :
    List JoinedRecord :=
  match students.filter fun s => decide (s.Name = c.Student_Name) with
  | [] => [mkUnmatched c]
  | m :: ms => (m :: ms).map (mkJoined c)

/-- `load_data`: clean the attendance table, left-join it to the master,
and return the merged table together with the master table. -/
def load_data (att : List RawAttendanceRow) (students : List StudentMasterRow) :
    List JoinedRecord × List StudentMasterRow :=
  ((cleanAttendance att).flatMap (joinRow students), students)

/-- The user-selected filter criteria: the three multiselects (an empty
list means "no restriction") and the normalized date interval. -/
structure FilterCriteria where
  selected_students : List String
  selected_subjects : List String
  selected_teachers : List String
  start_date : ℕ
  end_date : ℕ
deriving DecidableEq, Repr

/-- One `if selected: filtered_df = filtered_df[col.isin(selected)]` step:
run the `isin` mask only when the selection list is nonempty. -/
def selFilter (sel : List String) (col : JoinedRecord → String)
    (l : List JoinedRecord) : List JoinedRecord :=
  if sel.isEmpty then l else l.filter fun r => decide (col r ∈ sel)

/-- The Apply Filters block (lines 200-218): the three optional `isin`
filters in source order, then the date-range filter comparing the calendar
date of each `Date` against `start_date`/`end_date`. -/
def applyFilters (df : List JoinedRecord) (c : FilterCriteria) :
    List JoinedRecord :=
  let f1 := selFilter c.selected_students (fun r => r.Student_Name) df
  let f2 := selFilter c.selected_subjects (fun r => r.Subject) f1
  let f3 := selFilter c.selected_teachers (fun r => r.Teacher_Name) f2
  f3.filter fun r =>
    decide (c.start_date ≤ dateOf r.Date) && decide (dateOf r.Date ≤ c.end_date)

/-- Ordering relation of `sort_values(col, ascending=False)`: `a` may come
before `b` iff `b`'s sort-column value is `≤ a`'s.  Ties are related both
ways: any order of equal-column rows satisfies the relation, matching the
unspecified tie order of the pandas default `kind = quicksort` (the
embedding's `insertionSort` realizes one such order; no theorem depends on
which). -/
def hoursDescRel {α : Type} (hours : α → ℚ) : α → α → Prop :=
  fun a b => hours b ≤ hours a

instance {α : Type} (hours : α → ℚ) : DecidableRel (hoursDescRel hours) :=
  fun a b => inferInstanceAs (Decidable (hours b ≤ hours a))

instance {α : Type} (hours : α → ℚ) : IsTotal α (hoursDescRel hours) :=
  ⟨fun a b => le_total (hours b) (hours a)⟩

instance {α : Type} (hours : α → ℚ) : IsTrans α (hoursDescRel hours) :=
  ⟨fun _ _ _ h1 h2 => le_trans h2 h1⟩

/-- The distinct values of a key column, in ascending order: the group keys
enumerated by `groupby` (pandas default `sort=True`). -/
def sortedKeys (keys : List String) : List String :=
  keys.dedup.insertionSort (· ≤ ·)

/-- `min` of a list of timestamps (`none` on the empty list, as pandas
`Series.min()` is `NaT` there). -/
def listMin : List ℕ → Option ℕ
  | [] => none
  | t :: ts => some (ts.foldl min t)

/-- `max` of a list of timestamps. -/
def listMax : List ℕ → Option ℕ
  | [] => none
  | t :: ts => some (ts.foldl max t)

/-- `min_date = df["Date"].min().date()` (line 156). -/
def min_date (df : List JoinedRecord) : Option ℕ :=
  (listMin (df.map fun r => r.Date)).map dateOf

/-- `max_date = df["Date"].max().date()` (line 157). -/
def max_date (df : List JoinedRecord) : Option ℕ :=
  (listMax (df.map fun r => r.Date)).map dateOf

/-- A row of `student_summary`.  `First_Date`/`Last_Date` hold calendar
dates (the code applies `.dt.date` after aggregating); they are `Option`s
because pandas min/max of an empty group is `NaT` (groups are in fact
always nonempty). -/
structure StudentSummaryRow where
  Student_Name : String
  Total_Duration_Minutes : ℚ
  Total_Duration_Hours : ℚ
  Sessions : ℕ
  First_Date : Option ℕ
  Last_Date : Option ℕ
deriving DecidableEq, Repr

/-- `student_summary` (lines 259-273): group the filtered table by
`Student_Name` (keys ascending), aggregate, then
`sort_values("Total_Duration_Hours", ascending=False)` (tie order
unspecified in the program; the embedded sort is one representative). -/
def student_summary (df : List JoinedRecord) : List StudentSummaryRow :=
  let rows := (sortedKeys (df.map fun r => r.Student_Name)).map fun k =>
    let g := df.filter fun r => decide (r.Student_Name = k)
    { Student_Name := k
      Total_Duration_Minutes := (g.map fun r => r.Duration_Minutes).sum
      Total_Duration_Hours := (g.map fun r => r.Duration_Hours).sum
      Sessions := g.length
      First_Date := (listMin (g.map fun r => r.Date)).map dateOf
      Last_Date := (listMax (g.map fun r => r.Date)).map dateOf
      : StudentSummaryRow }
  rows.insertionSort (hoursDescRel fun row => row.Total_Duration_Hours)

/-- A row of `teacher_summary` / `subject_summary_all`; `Group_Key` is the
`Teacher_Name` (resp. `Subject`) value. -/
structure GroupSummaryRow where
  Group_Key : String
  Total_Duration_Hours : ℚ
  Sessions : ℕ
  Unique_Students : ℕ
deriving DecidableEq, Repr

/-- Shared shape of `teacher_summary` (lines 292-301) and
`subject_summary_all` (lines 311-320): group by `key`, aggregate sum of
hours, session count and `nunique` of students, then
`sort_values("Total_Duration_Hours", ascending=False)` (tie order
unspecified in the program; the embedded sort is one representative). -/
def groupSummary (key : JoinedRecord → String) (df : List JoinedRecord) :
    List GroupSummaryRow :=
  let rows := (sortedKeys (df.map key)).map fun k =>
    let g := df.filter fun r => decide (key r = k)
    { Group_Key := k
      Total_Duration_Hours := (g.map fun r => r.Duration_Hours).sum
      Sessions := g.length
      Unique_Students := (g.map fun r => r.Student_Name).dedup.length
      : GroupSummaryRow }
  rows.insertionSort (hoursDescRel fun row => row.Total_Duration_Hours)

/-- `teacher_summary` (lines 292-301). -/
def teacher_summary (df : List JoinedRecord) : List GroupSummaryRow :=
  groupSummary (fun r => r.Teacher_Name) df

/-- `subject_summary_all` (lines 311-320). -/
def subject_summary_all (df : List JoinedRecord) : List GroupSummaryRow :=
  groupSummary (fun r => r.Subject) df

/-- The overview scalar metrics (lines 233-239). -/
structure OverviewMetrics where
  total_duration_hours : ℚ
  total_duration_minutes : ℚ
  unique_students : ℕ
  unique_subjects : ℕ
  unique_teachers : ℕ
  unique_dates : ℕ
  total_records : ℕ
deriving DecidableEq, Repr

/-- Compute the overview metrics over the filtered table; `unique_dates`
counts distinct calendar dates (`dt.normalize().nunique()`). -/
def overviewMetrics (fdf : List JoinedRecord) : OverviewMetrics :=
  { total_duration_hours := (fdf.map fun r => r.Duration_Hours).sum
    total_duration_minutes := (fdf.map fun r => r.Duration_Minutes).sum
    unique_students := (fdf.map fun r => r.Student_Name).dedup.length
    unique_subjects := (fdf.map fun r => r.Subject).dedup.length
    unique_teachers := (fdf.map fun r => r.Teacher_Name).dedup.length
    unique_dates := (fdf.map fun r => dateOf r.Date).dedup.length
    total_records := fdf.length }

/-- Outcome of the filter stage (lines 220-226): an empty filtered table is
signalled as a distinct no-data state (`st.warning` + `st.stop`), any other
table flows on. -/
inductive FilterOutcome where
  | emptyResult
  | data (records : List JoinedRecord)
deriving DecidableEq, Repr

/-- The filter stage: apply the filters, then branch on emptiness. -/
def filterStage (df : List JoinedRecord) (c : FilterCriteria) : FilterOutcome :=
  let f := applyFilters df c
  if f.isEmpty then FilterOutcome.emptyResult else FilterOutcome.data f

/-- `student_df` (line 339): the filtered rows of one student. -/
def student_df (fdf : List JoinedRecord) (s : String) : List JoinedRecord :=
  fdf.filter fun r => decide (r.Student_Name = s)

/-- A row of `student_subject_summary` (lines 343-352). -/
structure StudentSubjectRow where
  Subject : String
  Total_Duration_Hours : ℚ
  Sessions : ℕ
  Unique_Dates : ℕ
deriving DecidableEq, Repr

/-- `student_subject_summary`: group the single student's rows by subject,
aggregate, sort descending by hours (tie order unspecified in the program;
the embedded sort is one representative). -/
def student_subject_summary (sdf : List JoinedRecord) : List StudentSubjectRow :=
  let rows := (sortedKeys (sdf.map fun r => r.Subject)).map fun k =>
    let g := sdf.filter fun r => decide (r.Subject = k)
    { Subject := k
      Total_Duration_Hours := (g.map fun r => r.Duration_Hours).sum
      Sessions := g.length
      Unique_Dates := (g.map fun r => dateOf r.Date).dedup.length
      : StudentSubjectRow }
  rows.insertionSort (hoursDescRel fun row => row.Total_Duration_Hours)

/-- A row of `daily_summary` (lines 364-369): one calendar date and the
summed hours of that date. -/
structure DailyRow where
  Session_Date : ℕ
  Total_Duration_Hours : ℚ
deriving DecidableEq, Repr

/-- `daily_summary`: group by calendar date (`dt.date`); `groupby` leaves
the result ascending by date. -/
def daily_summary (sdf : List JoinedRecord) : List DailyRow :=
  ((sdf.map fun r => dateOf r.Date).dedup.insertionSort (· ≤ ·)).map fun d =>
    { Session_Date := d
      Total_Duration_Hours :=
        ((sdf.filter fun r => decide (dateOf r.Date = d)).map
          fun r => r.Duration_Hours).sum }

/-- `date_subject_pivot` (lines 381-390): dates × subjects, cell = summed
`Duration_Hours`, `fill_value = 0` for absent combinations (the sum over an
empty cell group is `0`).  Index and columns come out ascending. -/
def date_subject_pivot (sdf : List JoinedRecord) :
    List (ℕ × List (String × ℚ)) :=
  let subjects := sortedKeys (sdf.map fun r => r.Subject)
  ((sdf.map fun r => dateOf r.Date).dedup.insertionSort (· ≤ ·)).map fun d =>
    (d, subjects.map fun s =>
      (s, ((sdf.filter fun r =>
              decide (dateOf r.Date = d) && decide (r.Subject = s)).map
            fun r => r.Duration_Hours).sum))

/-- Outcome of the detailed single-student view (lines 335-397): the three
detail tables when exactly one student is selected, otherwise the guidance
message (`st.info`). -/
inductive DetailOutcome where
  | detail (subjectBreakdown : List StudentSubjectRow) (daily : List DailyRow)
      (matrix : List (ℕ × List (String × ℚ)))
  | invalidSelection
deriving DecidableEq, Repr

/-- The detail stage: `if len(selected_students) == 1` compute the three
detail tables for `selected_students[0]`, else show guidance. -/
def detailStage (selected_students : List String) (fdf : List JoinedRecord) :
    DetailOutcome :=
  match selected_students with
  | [s] =>
    DetailOutcome.detail (student_subject_summary (student_df fdf s))
      (daily_summary (student_df fdf s)) (date_subject_pivot (student_df fdf s))
  | _ => DetailOutcome.invalidSelection

/-- The failure an external file read can raise: `FileNotFoundError`, or
any other read/parse exception. -/
inductive ReadError where
  | fileNotFound (msg : String)
  | otherError (msg : String)
deriving DecidableEq, Repr

/-- Result of the loading boundary (lines 101-112). -/
inductive LoadResult where
  | ok (df : List JoinedRecord) (students : List StudentMasterRow)
  | fileNotFound (msg : String)
  | loadError (msg : String)
deriving DecidableEq, Repr

/-- The `try/except` boundary around `load_data` (lines 101-108).  The two
`pd.read_excel` calls are external IO, modelled as functions supplied by the
environment; they run in source order (attendance first, line 34, then the
master, line 35) and the first failure raises, caught as
`except FileNotFoundError` (→ `fileNotFound`) or `except Exception`
(→ `loadError`). -/
def loadWithErrors
    (readAtt : String → Except ReadError (List RawAttendanceRow))
    (readMaster : String → Except ReadError (List StudentMasterRow))
    (attendance_path student_master_path : String) : LoadResult :=
  match readAtt attendance_path with
  | Except.error (ReadError.fileNotFound m) => LoadResult.fileNotFound m
  | Except.error (ReadError.otherError m) => LoadResult.loadError m
  | Except.ok att =>
    match readMaster student_master_path with
    | Except.error (ReadError.fileNotFound m) => LoadResult.fileNotFound m
    | Except.error (ReadError.otherError m) => LoadResult.loadError m
    | Except.ok students =>
      LoadResult.ok (load_data att students).1 (load_data att students).2

/-! ## Concrete example data (used by witnesses and counterexamples) -/

/-- A concrete joined record (day 10, with a nonzero time of day). -/
def exRec1 : JoinedRecord :=
  { Date := 86400 * 10 + 3600
    Student_Name := "Alice"
    Teacher_Name := "Tom"
    Subject := "Math"
    Duration_Minutes := 60
    Duration_Hours := 1
    Source_File := none
    Student_ID := some "S1"
    Student_Name_Master := some "Alice"
    Grade := some "5"
    Email := some "a@ex"
    Status := some "active" }

/-- A second concrete joined record (day 12). -/
def exRec2 : JoinedRecord :=
  { exRec1 with
    Student_Name := "Bob"
    Teacher_Name := "Tina"
    Subject := "Science"
    Date := 86400 * 12 }

/-! ## Helper lemmas -/

theorem mem_selFilter {sel : List String} {col : JoinedRecord → String}
    {l : List JoinedRecord} {r : JoinedRecord} :
    r ∈ selFilter sel col l ↔ r ∈ l ∧ (sel = [] ∨ col r ∈ sel) := by
  cases sel with
  | nil => simp [selFilter]
  | cons a as => simp [selFilter, List.mem_filter]

theorem mem_applyFilters {df : List JoinedRecord} {c : FilterCriteria}
    {r : JoinedRecord} :
    r ∈ applyFilters df c ↔
      r ∈ df ∧ (c.selected_students = [] ∨ r.Student_Name ∈ c.selected_students) ∧
        (c.selected_subjects = [] ∨ r.Subject ∈ c.selected_subjects) ∧
        (c.selected_teachers = [] ∨ r.Teacher_Name ∈ c.selected_teachers) ∧
        c.start_date ≤ dateOf r.Date ∧ dateOf r.Date ≤ c.end_date := by
  simp only [applyFilters, List.mem_filter, mem_selFilter, Bool.and_eq_true,
    decide_eq_true_eq]
  tauto

theorem applyFilters_subset {df : List JoinedRecord} {c : FilterCriteria}
    {r : JoinedRecord} (h : r ∈ applyFilters df c) : r ∈ df :=
  (mem_applyFilters.mp h).1

theorem foldl_min_le_init : ∀ (ts : List ℕ) (a : ℕ), ts.foldl min a ≤ a
  | [], _ => le_refl _
  | t :: ts, a => le_trans (foldl_min_le_init ts (min a t)) (min_le_left a t)

theorem foldl_min_le_mem : ∀ (ts : List ℕ) (a x : ℕ), x ∈ ts → ts.foldl min a ≤ x
  | t :: ts, a, x, hx => by
    rcases List.mem_cons.mp hx with rfl | hx
    · exact le_trans (foldl_min_le_init ts (min a x)) (min_le_right a x)
    · exact foldl_min_le_mem ts (min a t) x hx

theorem le_foldl_max_init : ∀ (ts : List ℕ) (a : ℕ), a ≤ ts.foldl max a
  | [], _ => le_refl _
  | t :: ts, a => le_trans (le_max_left a t) (le_foldl_max_init ts (max a t))

theorem le_foldl_max_mem : ∀ (ts : List ℕ) (a x : ℕ), x ∈ ts → x ≤ ts.foldl max a
  | t :: ts, a, x, hx => by
    rcases List.mem_cons.mp hx with rfl | hx
    · exact le_trans (le_max_right a x) (le_foldl_max_init ts (max a x))
    · exact le_foldl_max_mem ts (max a t) x hx

theorem min_date_le {df : List JoinedRecord} {r : JoinedRecord} (hr : r ∈ df)
    {lo : ℕ} (h : min_date df = some lo) : lo ≤ dateOf r.Date := by
  cases df with
  | nil => cases hr
  | cons d ds =>
    have hfold : (ds.map fun x => x.Date).foldl min d.Date ≤ r.Date := by
      rcases List.mem_cons.mp hr with rfl | hr
      · exact foldl_min_le_init _ _
      · exact foldl_min_le_mem _ _ _ (List.mem_map_of_mem _ hr)
    have hlo : dateOf ((ds.map fun x => x.Date).foldl min d.Date) = lo := by
      simpa [min_date, listMin] using h
    rw [← hlo]
    exact Nat.div_le_div_right hfold

theorem le_max_date {df : List JoinedRecord} {r : JoinedRecord} (hr : r ∈ df)
    {hi : ℕ} (h : max_date df = some hi) : dateOf r.Date ≤ hi := by
  cases df with
  | nil => cases hr
  | cons d ds =>
    have hfold : r.Date ≤ (ds.map fun x => x.Date).foldl max d.Date := by
      rcases List.mem_cons.mp hr with rfl | hr
      · exact le_foldl_max_init _ _
      · exact le_foldl_max_mem _ _ _ (List.mem_map_of_mem _ hr)
    have hhi : dateOf ((ds.map fun x => x.Date).foldl max d.Date) = hi := by
      simpa [max_date, listMax] using h
    rw [← hhi]
    exact Nat.div_le_div_right hfold

theorem cleanAttendance_hours {att : List RawAttendanceRow} {c : CleanRow}
    (h : c ∈ cleanAttendance att) : c.Duration_Hours = c.Duration_Minutes / 60 := by
  simp only [cleanAttendance, List.mem_filterMap] at h
  obtain ⟨w, -, hw⟩ := h
  cases hd : w.Date with
  | none => rw [hd] at hw; cases hw
  | some d => rw [hd] at hw; cases hw; rfl

theorem joinRow_core_fields {students : List StudentMasterRow} {c : CleanRow}
    {j : JoinedRecord} (h : j ∈ joinRow students c) :
    j.Date = c.Date ∧ j.Student_Name = c.Student_Name ∧
      j.Teacher_Name = c.Teacher_Name ∧ j.Subject = c.Subject ∧
      j.Duration_Minutes = c.Duration_Minutes ∧
      j.Duration_Hours = c.Duration_Hours := by
  unfold joinRow at h
  split at h
  · rcases List.mem_singleton.mp h with rfl
    exact ⟨rfl, rfl, rfl, rfl, rfl, rfl⟩
  · obtain ⟨s, -, rfl⟩ := List.mem_map.mp h
    exact ⟨rfl, rfl, rfl, rfl, rfl, rfl⟩

theorem mem_load_data {att : List RawAttendanceRow}
    {students : List StudentMasterRow} {r : JoinedRecord}
    (h : r ∈ (load_data att students).1) :
    ∃ c ∈ cleanAttendance att, r ∈ joinRow students c := by
  simpa only [load_data, List.mem_flatMap] using h

theorem cleanAttendance_length (att : List RawAttendanceRow) :
    (cleanAttendance att).length = (att.filter fun w => w.Date.isSome).length := by
  induction att with
  | nil => rfl
  | cons w ws ih =>
    cases hd : w.Date with
    | none =>
      simpa [cleanAttendance, List.filterMap_cons, List.filter_cons, hd]
        using ih
    | some d =>
      simpa [cleanAttendance, List.filterMap_cons, List.filter_cons, hd]
        using ih

theorem cleanAttendance_filter_isSome (att : List RawAttendanceRow) :
    cleanAttendance (att.filter fun w => w.Date.isSome) = cleanAttendance att := by
  induction att with
  | nil => rfl
  | cons w ws ih =>
    cases hd : w.Date with
    | none =>
      simpa [cleanAttendance, List.filterMap_cons, List.filter_cons, hd]
        using ih
    | some d =>
      simpa [cleanAttendance, List.filterMap_cons, List.filter_cons, hd]
        using ih

theorem sum_map_filter_add {α : Type} (l : List α) (p : α → Bool) (f : α → ℚ) :
    ((l.filter p).map f).sum + ((l.filter fun x => !p x).map f).sum =
      (l.map f).sum := by
  induction l with
  | nil => simp
  | cons a t ih =>
    cases hp : p a <;>
      simp only [List.filter_cons, hp, Bool.not_true, Bool.not_false,
        if_pos, if_neg, Bool.false_eq_true, not_false_iff, ite_true, ite_false,
        List.map_cons, List.sum_cons, List.map, ← ih] <;> ring

theorem sum_over_groups {α : Type} (key : α → String) (f : α → ℚ) :
    ∀ (ks : List String), ks.Nodup → ∀ (l : List α), (∀ x ∈ l, key x ∈ ks) →
      (ks.map fun k => ((l.filter fun x => decide (key x = k)).map f).sum).sum =
        (l.map f).sum := by
  intro ks
  induction ks with
  | nil =>
    intro _ l hcov
    have : l = [] := by
      cases l with
      | nil => rfl
      | cons a t => exact absurd (hcov a (List.mem_cons_self a t)) (by simp)
    subst this
    simp
  | cons k ks ih =>
    intro hnd l hcov
    obtain ⟨hk, hnd'⟩ := List.nodup_cons.mp hnd
    have hrest : ∀ x ∈ l.filter fun x => !decide (key x = k), key x ∈ ks := by
      intro x hx
      obtain ⟨hxl, hxk⟩ := List.mem_filter.mp hx
      rcases List.mem_cons.mp (hcov x hxl) with h | h
      · simp [h] at hxk
      · exact h
    have hfilters : ks.map (fun k' =>
          ((l.filter fun x => decide (key x = k')).map f).sum) =
        ks.map fun k' =>
          (((l.filter fun x => !decide (key x = k)).filter fun x =>
            decide (key x = k')).map f).sum := by
      apply List.map_congr_left
      intro k' hk'
      rw [List.filter_filter]
      refine congrArg (fun t => (List.map f t).sum) (List.filter_congr ?_)
      intro x _
      have hke : k' ≠ k := fun he => hk (he ▸ hk')
      by_cases h : key x = k'
      · simp [h, hke]
      · simp [h]
    simp only [List.map_cons, List.sum_cons, hfilters,
      ih hnd' _ hrest]
    exact sum_map_filter_add l (fun x => decide (key x = k)) f

theorem grouped_hours_sum (key : JoinedRecord → String)
    (df : List JoinedRecord) :
    ((sortedKeys (df.map key)).map fun k =>
        ((df.filter fun r => decide (key r = k)).map
          fun r => r.Duration_Hours).sum).sum =
      (df.map fun r => r.Duration_Hours).sum := by
  have hperm : List.Perm (sortedKeys (df.map key)) (df.map key).dedup :=
    List.perm_insertionSort _ _
  rw [(hperm.map _).sum_eq]
  exact sum_over_groups key _ _ ((df.map key).nodup_dedup) df
    (fun x hx => List.mem_dedup.mpr (List.mem_map_of_mem key hx))

theorem groupSummary_total (key : JoinedRecord → String)
    (df : List JoinedRecord) :
    ((groupSummary key df).map fun row => row.Total_Duration_Hours).sum =
      (df.map fun r => r.Duration_Hours).sum := by
  unfold groupSummary
  rw [((List.perm_insertionSort _ _).map _).sum_eq, List.map_map]
  exact grouped_hours_sum key df

theorem student_summary_total (df : List JoinedRecord) :
    ((student_summary df).map fun row => row.Total_Duration_Hours).sum =
      (df.map fun r => r.Duration_Hours).sum := by
  unfold student_summary
  rw [((List.perm_insertionSort _ _).map _).sum_eq, List.map_map]
  exact grouped_hours_sum (fun r => r.Student_Name) df

theorem summary_map_key_perm {β : Type} (mk : String → β) (keyf : β → String)
    (hmk : ∀ k, keyf (mk k) = k) (r : β → β → Prop) [DecidableRel r]
    (keys : List String) :
    List.Perm (((keys.map mk).insertionSort r).map keyf) keys := by
  have h2 := (List.perm_insertionSort r (keys.map mk)).map keyf
  rw [List.map_map] at h2
  have h3 : keys.map (keyf ∘ mk) = keys :=
    (List.map_congr_left fun a _ => hmk a).trans (List.map_id keys)
  rwa [h3] at h2

/-! ## Claim theorems -/

/-- C1: a record of the joined table is in the filtered output iff each
nonempty selection set contains the corresponding column value and its
calendar date lies in the `[start_date, end_date]` interval. -/
theorem C1_record_passes_filter_iff (df : List JoinedRecord)
    (c : FilterCriteria) (r : JoinedRecord) (hr : r ∈ df) :
    r ∈ applyFilters df c ↔
      (c.selected_students = [] ∨ r.Student_Name ∈ c.selected_students) ∧
      (c.selected_subjects = [] ∨ r.Subject ∈ c.selected_subjects) ∧
      (c.selected_teachers = [] ∨ r.Teacher_Name ∈ c.selected_teachers) ∧
      c.start_date ≤ dateOf r.Date ∧ dateOf r.Date ≤ c.end_date := by
  rw [mem_applyFilters]
  simp [hr]

/-- C4: filtering with all three selection lists empty and the date interval
`[min_date, max_date]` of the loaded table returns the table unchanged. -/
theorem C4_full_range_filter_roundtrip (df : List JoinedRecord)
    (lo hi : ℕ) (hlo : min_date df = some lo)
    (hhi : max_date df = some hi) :
    applyFilters df
      { selected_students := [], selected_subjects := [],
        selected_teachers := [], start_date := lo, end_date := hi } = df := by
  show List.filter _ (selFilter [] _ (selFilter [] _ (selFilter [] _ df))) = df
  simp only [selFilter, List.isEmpty_nil, if_pos]
  rw [List.filter_eq_self]
  intro r hr
  simp only [Bool.and_eq_true, decide_eq_true_eq]
  exact ⟨min_date_le hr hlo, le_max_date hr hhi⟩

/-- Witness for C1 at a concrete table, criteria and record. -/
theorem C1_record_passes_filter_iff_witness :
    exRec1 ∈ ([exRec1, exRec2] : List JoinedRecord) ∧
      (exRec1 ∈ applyFilters [exRec1, exRec2]
          { selected_students := ["Alice"], selected_subjects := [],
            selected_teachers := [], start_date := 10, end_date := 12 } ↔
        ((["Alice"] : List String) = [] ∨ exRec1.Student_Name ∈ ["Alice"]) ∧
        (([] : List String) = [] ∨ exRec1.Subject ∈ ([] : List String)) ∧
        (([] : List String) = [] ∨ exRec1.Teacher_Name ∈ ([] : List String)) ∧
        10 ≤ dateOf exRec1.Date ∧ dateOf exRec1.Date ≤ 12) :=
  ⟨by decide,
    C1_record_passes_filter_iff [exRec1, exRec2]
      { selected_students := ["Alice"], selected_subjects := [],
        selected_teachers := [], start_date := 10, end_date := 12 }
      exRec1 (by decide)⟩

/-- Witness for C4 at a concrete two-record table. -/
theorem C4_full_range_filter_roundtrip_witness :
    min_date [exRec1, exRec2] = some 10 ∧ max_date [exRec1, exRec2] = some 12 ∧
      applyFilters [exRec1, exRec2]
        { selected_students := [], selected_subjects := [],
          selected_teachers := [], start_date := 10, end_date := 12 } =
        [exRec1, exRec2] :=
  ⟨by decide, by decide,
    C4_full_range_filter_roundtrip [exRec1, exRec2] 10 12 (by decide) (by decide)⟩

/-- C7: the filter stage ends in the distinct `emptyResult` state exactly
when the filters select no records; otherwise it passes the nonempty
filtered table on.  (`FilterOutcome` has no error alternative: the stage
cannot end in a load-style error, and the embedded function is total, so no
exception is raised.) -/
theorem C7_empty_filter_result_state (df : List JoinedRecord)
    (c : FilterCriteria) :
    (filterStage df c = FilterOutcome.emptyResult ↔ applyFilters df c = []) ∧
      (filterStage df c = FilterOutcome.emptyResult ∨
        filterStage df c = FilterOutcome.data (applyFilters df c)) := by
  unfold filterStage
  by_cases h : applyFilters df c = [] <;> simp [h]

/-- C9: the single-student detail tables are computed exactly when the
student selection has exactly one entry; any other selection ends in the
`invalidSelection` guidance state (and the embedded function is total, so
neither case fails). -/
theorem C9_detail_iff_single_student (selected_students : List String)
    (fdf : List JoinedRecord) :
    (detailStage selected_students fdf = DetailOutcome.invalidSelection ↔
        selected_students.length ≠ 1) ∧
      ∀ s, detailStage [s] fdf =
        DetailOutcome.detail (student_subject_summary (student_df fdf s))
          (daily_summary (student_df fdf s))
          (date_subject_pivot (student_df fdf s)) := by
  refine ⟨?_, fun s => rfl⟩
  match selected_students with
  | [] => simp [detailStage]
  | [s] => simp [detailStage]
  | a :: b :: t => simp [detailStage]

/-- C2: for each of the three grouping keys, the sum of
`Total_Duration_Hours` over the summary rows equals the sum of
`Duration_Hours` over the whole filtered table (the groups partition it). -/
theorem C2_grouping_preserves_total_hours (df : List JoinedRecord) :
    ((student_summary df).map fun row => row.Total_Duration_Hours).sum =
        (df.map fun r => r.Duration_Hours).sum ∧
      ((teacher_summary df).map fun row => row.Total_Duration_Hours).sum =
        (df.map fun r => r.Duration_Hours).sum ∧
      ((subject_summary_all df).map fun row => row.Total_Duration_Hours).sum =
        (df.map fun r => r.Duration_Hours).sum :=
  ⟨student_summary_total df, groupSummary_total (fun r => r.Teacher_Name) df,
    groupSummary_total (fun r => r.Subject) df⟩

/-- C3 as stated is false on the code: in the two-record table
`[exRec2, exRec1]` the key values occur in the order Bob, Alice and both
summary rows tie at `Total_Duration_Hours = 1`, yet the summary lists
Alice before Bob — `groupby` has already reordered the keys
alphabetically, so ties do not come out in first-occurrence order.  (On a
two-element tie the embedded sort provably reproduces the program: numpy's
introsort runs plain insertion sort below 16 elements and keeps the two
tied rows in place.) -/
theorem C3_counterexample_tie_not_first_occurrence :
    (([exRec2, exRec1].map fun r => r.Student_Name) = ["Bob", "Alice"]) ∧
      ((student_summary [exRec2, exRec1]).map fun row => row.Student_Name) =
        ["Alice", "Bob"] ∧
      ((student_summary [exRec2, exRec1]).map fun row => row.Total_Duration_Hours) =
        [1, 1] := by
  refine ⟨by decide, ?_, ?_⟩ <;>
    simp [student_summary, sortedKeys, List.insertionSort, List.orderedInsert,
      hoursDescRel, exRec1, exRec2, listMin, listMax, dateOf,
      List.dedup_cons_of_not_mem, List.dedup_cons_of_mem]

/-- C3, amended: each summary has exactly one row per distinct key value
and is sorted descending by `Total_Duration_Hours`; the relative order of
rows with equal totals is left unspecified by the program (pandas'
default quicksort is not stable, and `groupby` has already reordered the
keys alphabetically), so in particular it is not the first-occurrence
order of the input.  Stated here are the order-independent parts: the
summary keys are a permutation of the distinct key values, and the rows
are pairwise descending in `Total_Duration_Hours`. -/
theorem C3_summary_sort_amended (df : List JoinedRecord)
    (key : JoinedRecord → String) :
    List.Perm ((student_summary df).map fun row => row.Student_Name)
        (df.map fun r => r.Student_Name).dedup ∧
      ((student_summary df).Pairwise fun a b =>
        b.Total_Duration_Hours ≤ a.Total_Duration_Hours) ∧
      List.Perm ((groupSummary key df).map fun row => row.Group_Key)
        (df.map key).dedup ∧
      ((groupSummary key df).Pairwise fun a b =>
        b.Total_Duration_Hours ≤ a.Total_Duration_Hours) := by
  unfold student_summary groupSummary
  refine ⟨?_, ?_, ?_, ?_⟩
  · exact (summary_map_key_perm _ (fun row : StudentSummaryRow => row.Student_Name)
      (fun k => rfl) _ _).trans (List.perm_insertionSort _ _)
  · exact List.Pairwise.imp (fun h => h)
      (List.sorted_insertionSort
        (hoursDescRel fun row : StudentSummaryRow => row.Total_Duration_Hours) _)
  · exact (summary_map_key_perm _ (fun row : GroupSummaryRow => row.Group_Key)
      (fun k => rfl) _ _).trans (List.perm_insertionSort _ _)
  · exact List.Pairwise.imp (fun h => h)
      (List.sorted_insertionSort
        (hoursDescRel fun row : GroupSummaryRow => row.Total_Duration_Hours) _)

/-- C5: every record the loader produces satisfies
`Duration_Hours = Duration_Minutes / 60`; the invariant survives filtering;
and rows with a missing `Duration_Minutes` are kept (only rows with an
invalid date are dropped, so the cleaned length is the number of rows with
a parseable date). -/
theorem C5_duration_hours_invariant (att : List RawAttendanceRow)
    (students : List StudentMasterRow) :
    (∀ r ∈ (load_data att students).1,
        r.Duration_Hours = r.Duration_Minutes / 60) ∧
      (∀ (c : FilterCriteria), ∀ r ∈ applyFilters (load_data att students).1 c,
        r.Duration_Hours = r.Duration_Minutes / 60) ∧
      (cleanAttendance att).length = (att.filter fun w => w.Date.isSome).length := by
  have main : ∀ r ∈ (load_data att students).1,
      r.Duration_Hours = r.Duration_Minutes / 60 := by
    intro r hr
    obtain ⟨c, hc, hj⟩ := mem_load_data hr
    obtain ⟨-, -, -, -, hm, hh⟩ := joinRow_core_fields hj
    rw [hh, hm]
    exact cleanAttendance_hours hc
  exact ⟨main, fun c r hr => main r (applyFilters_subset hr),
    cleanAttendance_length att⟩

/-- A raw attendance row with a valid date and a missing
(`NaN`) duration. -/
def exRaw1 : RawAttendanceRow :=
  { Date := some (86400 * 10 + 3600)
    Student_Name := "Alice"
    Teacher_Name := "Tom"
    Subject := "Math"
    Duration_Minutes := none
    Source_File := none }

/-- A raw attendance row whose date failed to parse (`NaT`). -/
def exRawBad : RawAttendanceRow := { exRaw1 with Date := none }

/-- The cleaned form of `exRaw1`: missing duration filled with `0`. -/
def exClean1 : CleanRow :=
  { Date := 86400 * 10 + 3600
    Student_Name := "Alice"
    Teacher_Name := "Tom"
    Subject := "Math"
    Duration_Minutes := 0
    Duration_Hours := 0 / 60
    Source_File := none }

/-- Witness for C5 on a one-row attendance table with a missing duration. -/
theorem C5_duration_hours_invariant_witness :
    mkUnmatched exClean1 ∈ (load_data [exRaw1] []).1 ∧
      (mkUnmatched exClean1).Duration_Hours =
        (mkUnmatched exClean1).Duration_Minutes / 60 :=
  ⟨List.mem_singleton.mpr rfl,
    (C5_duration_hours_invariant [exRaw1] []).1 (mkUnmatched exClean1)
      (List.mem_singleton.mpr rfl)⟩

/-- C6: rows whose date could not be parsed are dropped by the loader and
are invisible downstream: deleting them from the raw input changes neither
the loader output nor any filtered table, summary, detail view or overview
metric computed from it. -/
theorem C6_unparseable_dates_excluded (att : List RawAttendanceRow)
    (students : List StudentMasterRow) :
    load_data (att.filter fun w => w.Date.isSome) students =
        load_data att students ∧
      (∀ (c : FilterCriteria),
        applyFilters (load_data (att.filter fun w => w.Date.isSome) students).1 c =
          applyFilters (load_data att students).1 c) ∧
      (∀ (c : FilterCriteria),
        student_summary
            (applyFilters (load_data (att.filter fun w => w.Date.isSome) students).1 c) =
          student_summary (applyFilters (load_data att students).1 c) ∧
        teacher_summary
            (applyFilters (load_data (att.filter fun w => w.Date.isSome) students).1 c) =
          teacher_summary (applyFilters (load_data att students).1 c) ∧
        subject_summary_all
            (applyFilters (load_data (att.filter fun w => w.Date.isSome) students).1 c) =
          subject_summary_all (applyFilters (load_data att students).1 c) ∧
        overviewMetrics
            (applyFilters (load_data (att.filter fun w => w.Date.isSome) students).1 c) =
          overviewMetrics (applyFilters (load_data att students).1 c)) ∧
      (∀ (ss : List String) (c : FilterCriteria),
        detailStage ss
            (applyFilters (load_data (att.filter fun w => w.Date.isSome) students).1 c) =
          detailStage ss (applyFilters (load_data att students).1 c)) := by
  have h : load_data (att.filter fun w => w.Date.isSome) students =
      load_data att students := by
    unfold load_data
    rw [cleanAttendance_filter_isSome]
  rw [h]
  exact ⟨rfl, fun _ => rfl, fun _ => ⟨rfl, rfl, rfl, rfl⟩, fun _ _ => rfl⟩

/-- C10: the left join emits one row per matching master row — `k`
duplicate master names multiply a matching attendance record `k` times in
the joined table and in every downstream duration sum — and exactly one
row with null master fields when there is no match. -/
theorem C10_left_join_multiplicity (students : List StudentMasterRow)
    (c : CleanRow) :
    ((joinRow students c).length =
        max 1 (students.filter fun s => decide (s.Name = c.Student_Name)).length) ∧
      (((joinRow students c).map fun j => j.Duration_Hours).sum =
        ((max 1 (students.filter fun s =>
            decide (s.Name = c.Student_Name)).length : ℕ) : ℚ) *
          c.Duration_Hours) ∧
      (∀ j ∈ joinRow students c, j.Student_Name = c.Student_Name ∧
        j.Duration_Hours = c.Duration_Hours) ∧
      ((students.filter fun s => decide (s.Name = c.Student_Name)).length = 0 →
        joinRow students c = [mkUnmatched c] ∧
          (mkUnmatched c).Student_ID = none ∧
          (mkUnmatched c).Student_Name_Master = none ∧
          (mkUnmatched c).Grade = none ∧ (mkUnmatched c).Email = none ∧
          (mkUnmatched c).Status = none) ∧
      ((students.filter fun s => decide (s.Name = c.Student_Name)).length ≠ 0 →
        joinRow students c =
          (students.filter fun s => decide (s.Name = c.Student_Name)).map
            (mkJoined c)) := by
  unfold joinRow
  cases hm : students.filter fun s => decide (s.Name = c.Student_Name) with
  | nil =>
    refine ⟨by simp, by simp [mkUnmatched], ?_, fun _ => ⟨rfl, rfl, rfl, rfl, rfl, rfl⟩,
      fun hk => absurd rfl hk⟩
    intro j hj
    rcases List.mem_singleton.mp hj with rfl
    exact ⟨rfl, rfl⟩
  | cons m ms =>
    have hlen : max 1 (m :: ms).length = (m :: ms).length :=
      max_eq_right (Nat.succ_le_succ (Nat.zero_le _))
    refine ⟨by simp [hlen], ?_, ?_, ?_, fun _ => rfl⟩
    · rw [hlen]
      have hconst : ((m :: ms).map (mkJoined c)).map (fun j => j.Duration_Hours) =
          (m :: ms).map fun _ => c.Duration_Hours := by
        rw [List.map_map]; rfl
      show (((m :: ms).map (mkJoined c)).map fun j => j.Duration_Hours).sum = _
      rw [hconst, List.map_const', List.sum_replicate, nsmul_eq_mul,
        List.length_cons]
    · intro j hj
      obtain ⟨s, -, rfl⟩ := List.mem_map.mp hj
      exact ⟨rfl, rfl⟩
    · intro h0
      exact absurd h0 (Nat.succ_ne_zero _)

/-- C8: the loading boundary is total (no exception escapes) and
classifies every outcome: it succeeds with the joined data exactly when
both reads succeed; it returns a `fileNotFound`-kind result exactly when
the first failing read could not locate its file; and it returns a
`loadError`-kind result exactly when the first failing read failed any
other way.  In both failure cases the message is carried to the caller. -/
theorem C8_loader_error_taxonomy
    (readAtt : String → Except ReadError (List RawAttendanceRow))
    (readMaster : String → Except ReadError (List StudentMasterRow))
    (pa pm : String) :
    ((∃ att students, readAtt pa = Except.ok att ∧
        readMaster pm = Except.ok students ∧
        loadWithErrors readAtt readMaster pa pm =
          LoadResult.ok (load_data att students).1 (load_data att students).2) ∨
      (∃ m, loadWithErrors readAtt readMaster pa pm = LoadResult.fileNotFound m ∧
        (readAtt pa = Except.error (ReadError.fileNotFound m) ∨
          readMaster pm = Except.error (ReadError.fileNotFound m))) ∨
      (∃ m, loadWithErrors readAtt readMaster pa pm = LoadResult.loadError m ∧
        (readAtt pa = Except.error (ReadError.otherError m) ∨
          readMaster pm = Except.error (ReadError.otherError m)))) ∧
    (∀ m, readAtt pa = Except.error (ReadError.fileNotFound m) →
      loadWithErrors readAtt readMaster pa pm = LoadResult.fileNotFound m) ∧
    (∀ att m, readAtt pa = Except.ok att →
      readMaster pm = Except.error (ReadError.fileNotFound m) →
      loadWithErrors readAtt readMaster pa pm = LoadResult.fileNotFound m) ∧
    (∀ m, readAtt pa = Except.error (ReadError.otherError m) →
      loadWithErrors readAtt readMaster pa pm = LoadResult.loadError m) ∧
    (∀ att m, readAtt pa = Except.ok att →
      readMaster pm = Except.error (ReadError.otherError m) →
      loadWithErrors readAtt readMaster pa pm = LoadResult.loadError m) := by
  refine ⟨?_, fun m ha => by simp [loadWithErrors, ha],
    fun att m ha hb => by simp [loadWithErrors, ha, hb],
    fun m ha => by simp [loadWithErrors, ha],
    fun att m ha hb => by simp [loadWithErrors, ha, hb]⟩
  rcases ha : readAtt pa with e | att
  · cases e with
    | fileNotFound m =>
      exact Or.inr (Or.inl ⟨m, by simp [loadWithErrors, ha], Or.inl rfl⟩)
    | otherError m =>
      exact Or.inr (Or.inr ⟨m, by simp [loadWithErrors, ha], Or.inl rfl⟩)
  · rcases hb : readMaster pm with e | students
    · cases e with
      | fileNotFound m =>
        exact Or.inr (Or.inl ⟨m, by simp [loadWithErrors, ha, hb], Or.inr rfl⟩)
      | otherError m =>
        exact Or.inr (Or.inr ⟨m, by simp [loadWithErrors, ha, hb], Or.inr rfl⟩)
    · exact Or.inl ⟨att, students, rfl, rfl, by simp [loadWithErrors, ha, hb]⟩

/-- A read that fails to locate its file. -/
def exReadAttFail : String → Except ReadError (List RawAttendanceRow) :=
  fun _ => Except.error (ReadError.fileNotFound "attendance file missing")

/-- A read that succeeds with an empty master table. -/
def exReadMasterOk : String → Except ReadError (List StudentMasterRow) :=
  fun _ => Except.ok []

/-- Witness for C8: a missing attendance file surfaces as the
`fileNotFound` result carrying the message. -/
theorem C8_loader_error_taxonomy_witness :
    loadWithErrors exReadAttFail exReadMasterOk "a.xlsx" "m.xlsx" =
      LoadResult.fileNotFound "attendance file missing" :=
  (C8_loader_error_taxonomy exReadAttFail exReadMasterOk "a.xlsx" "m.xlsx").2.1
    "attendance file missing" rfl

/-- Master rows with the same `Name`, to exercise the duplicate case. -/
def exMaster1 : StudentMasterRow :=
  { Student_ID := "S1", Name := "Alice", Grade := "5", Email := "a@ex",
    Status := "active" }

/-- A second master row with the same `Name` as `exMaster1`. -/
def exMaster2 : StudentMasterRow := { exMaster1 with Student_ID := "S2" }

/-- Witness for C10: two duplicate master rows double a record, and the
no-match case yields the single null-fields row. -/
theorem C10_left_join_multiplicity_witness :
    (mkJoined exClean1 exMaster1).Student_Name = exClean1.Student_Name ∧
      (([] : List StudentMasterRow).filter fun s =>
        decide (s.Name = exClean1.Student_Name)).length = 0 ∧
      (joinRow [] exClean1 = [mkUnmatched exClean1] ∧
        (mkUnmatched exClean1).Student_ID = none ∧
        (mkUnmatched exClean1).Student_Name_Master = none ∧
        (mkUnmatched exClean1).Grade = none ∧
        (mkUnmatched exClean1).Email = none ∧
        (mkUnmatched exClean1).Status = none) ∧
      joinRow [exMaster1, exMaster2] exClean1 =
        ([exMaster1, exMaster2].filter fun s =>
          decide (s.Name = exClean1.Student_Name)).map (mkJoined exClean1) :=
  ⟨((C10_left_join_multiplicity [exMaster1, exMaster2] exClean1).2.2.1
      (mkJoined exClean1 exMaster1) (List.mem_cons_self _ _)).1,
    by decide,
    (C10_left_join_multiplicity [] exClean1).2.2.2.1 (by decide),
    (C10_left_join_multiplicity [exMaster1, exMaster2] exClean1).2.2.2.2
      (by decide)⟩

end Attendance
